import Mathlib

/-!
Verification of the data-processing utilities in
src/messy-project/src/utils/data_processor.py.

The file shallowly embeds the three units of the source module:
the record normalizer (process_user_data), the numeric aggregator
(calculate_metrics), and the DataAnalyzer class.  Python values are
modelled by the inductive type Value, whose truthiness mirrors Python,
and the lower-casing step of the normalizer is modelled as a fallible
operation (Python raises AttributeError when the looked-up value is not
a string).
-/

/-- A dynamic value, modelling the Python values the module touches:
None, booleans, integers, strings, dictionaries and lists. -/
inductive Value where
  | vNone : Value
  | vBool : Bool → Value
  | vInt : Int → Value
  | vStr : String → Value
  | vDict : List (String × Value) → Value
  | vList : List Value → Value

/-- Python truthiness of a Value: None, False, 0, the empty string and
empty containers are falsy, everything else is truthy. -/
def truthy : Value → Bool
  | Value.vNone => false
  | Value.vBool b => b
  | Value.vInt n => n != 0
  | Value.vStr s => s != ""
  | Value.vDict d => !d.isEmpty
  | Value.vList l => !l.isEmpty

/-- Dictionary lookup: first binding of the key, if any (Python dicts
have unique keys, so an association list with first-match lookup models
them faithfully). -/
def dictLookup (d : List (String × Value)) (k : String) : Option Value :=
  match d with
  | [] => none
  | (k2, v) :: rest => if k2 = k then some v else dictLookup rest k

/-- Python dict.get(k, default): the stored value when the key is
present, the supplied default otherwise. -/
def dictGet (d : List (String × Value)) (k : String) (default : Value) : Value :=
  (dictLookup d k).getD default

/-- The one runtime fault the module can raise: calling .lower() on a
value that is not a string raises AttributeError in Python. -/
inductive PyErr where
  | attributeError : PyErr

/-- Lower-casing of a string, character by character, as Python's
str.lower does on the ASCII range. -/
def strLower (s : String) : String :=
  String.mk (s.data.map Char.toLower)

/-- The .lower() method call of the source: succeeds with the
lower-cased text on a string, raises AttributeError on anything else. -/
def pyStrLower : Value → Except PyErr String
  | Value.vStr s => Except.ok (strLower s)
  | Value.vNone => Except.error PyErr.attributeError
  | Value.vBool _ => Except.error PyErr.attributeError
  | Value.vInt _ => Except.error PyErr.attributeError
  | Value.vDict _ => Except.error PyErr.attributeError
  | Value.vList _ => Except.error PyErr.attributeError

/-- The dictionary returned by process_user_data: the keys id and
normalized of the source literal. -/
structure NormalizedUserData where
  id : Value
  normalized : String

/-- process_user_data(user_id, data) of the source: returns the
dictionary with the identifier unchanged under id and
data.get('name', '').lower() under normalized; the .lower() call can
raise when the looked-up value is not a string. -/
def process_user_data (user_id : Value) (data : List (String × Value)) :
    Except PyErr NormalizedUserData :=
  match pyStrLower (dictGet data "name" (Value.vStr "")) with
  | Except.ok s => Except.ok { id := user_id, normalized := s }
  | Except.error e => Except.error e

/-- The output dictionary of process_user_data viewed again as a raw
record, with its two keys id and normalized. -/
def normalizedToRecord (res : NormalizedUserData) : List (String × Value) :=
  [("id", res.id), ("normalized", Value.vStr res.normalized)]

/-- The dictionary returned by calculate_metrics, with keys total and
average.  Numbers are modelled as rationals, so that Python's exact
integer sums and true division are both represented faithfully. -/
structure MetricsResult where
  total : ℚ
  average : ℚ

/-- calculate_metrics(dataset) of the source: total = sum(dataset) and
avg = total / len(dataset) if dataset else 0, then both returned in a
dictionary.  The conditional expression tests the truthiness of the
list, that is, its non-emptiness. -/
def calculate_metrics (dataset : List ℚ) : MetricsResult :=
  let total := dataset.sum
  let avg := if dataset.isEmpty then 0 else total / (dataset.length : ℚ)
  { total := total, average := avg }

/-- The DataAnalyzer class: it holds the single attribute config set by
the constructor. -/
structure DataAnalyzer where
  config : Value

/-- DataAnalyzer.__init__ with an explicit argument: the source stores
config or \x7b\x7d, that is, the argument itself when truthy and a
freshly built empty dictionary otherwise. -/
def DataAnalyzer.init (config : Value) : DataAnalyzer :=
  { config := if truthy config then config else Value.vDict [] }

/-- DataAnalyzer() with the argument omitted: the parameter defaults to
None in the source. -/
def DataAnalyzer.initDefault : DataAnalyzer :=
  DataAnalyzer.init Value.vNone

/-- The dictionary returned by DataAnalyzer.analyze, with keys analyzed
and data_count. -/
structure AnalysisResult where
  analyzed : Bool
  data_count : Nat

/-- DataAnalyzer.analyze(data) of the source: the constant dictionary
analyzed = True together with len(data). -/
def DataAnalyzer.analyze (_self : DataAnalyzer) (data : List Value) :
    AnalysisResult :=
  { analyzed := true, data_count := data.length }

/-- DataAnalyzer._internal_helper(x) of the source: doubles its input;
dead code, never called by any public operation. -/
def DataAnalyzer.internalHelper (_self : DataAnalyzer) (x : Int) : Int :=
  x * 2

/-! Helper lemmas shared by the claim theorems. -/

/-- A lookup that misses every key of the record returns none. -/
theorem dictLookup_normalizedToRecord_name (res : NormalizedUserData) :
    dictLookup (normalizedToRecord res) "name" = none := by
  simp [dictLookup, normalizedToRecord]

/-! The claim theorems. -/

/-- Claim C1: for every numeric sequence d, calculate_metrics(d).average
equals sum(d) divided by the length of d when d is non-empty, and equals
0 when d is empty; the empty-input case returns 0 without raising any
error or producing NaN. -/
theorem calculate_metrics_average_spec (d : List ℚ) :
    (calculate_metrics d).average =
      if d = [] then 0 else d.sum / (d.length : ℚ) := by
  simp only [calculate_metrics, List.isEmpty_iff]

/-- Claim C2, counterexample: process_user_data does raise an error on a
record whose name value is not a string; on the record binding name to
the integer 5 the .lower() call raises AttributeError. -/
theorem process_user_data_raises_on_int_name :
    process_user_data (Value.vStr "u1") [("name", Value.vInt 5)] =
      Except.error PyErr.attributeError := rfl

/-- Claim C2, amended: process_user_data(i, r) succeeds for every
identifier i and every record r whose looked-up name value (defaulting
to the empty string when the key is absent) is a string; only a
non-string name value makes the operation raise. -/
theorem process_user_data_ok_of_string_name (i : Value)
    (r : List (String × Value))
    (h : ∃ s, dictGet r "name" (Value.vStr "") = Value.vStr s) :
    ∃ res, process_user_data i r = Except.ok res := by
  obtain ⟨s, hs⟩ := h
  refine ⟨{ id := i, normalized := strLower s }, ?_⟩
  simp [process_user_data, hs, pyStrLower]

/-- Witness for the amended claim C2 at the record binding name to the
string Alice. -/
theorem process_user_data_ok_of_string_name_witness :
    ∃ res, process_user_data (Value.vStr "u1")
      [("name", Value.vStr "Alice")] = Except.ok res :=
  process_user_data_ok_of_string_name (Value.vStr "u1")
    [("name", Value.vStr "Alice")] ⟨"Alice", rfl⟩

/-- Claim C3: if the record maps the key name to a string s, the
normalized field of the result is the lower-casing of s, and if the
record has no key name, the normalized field is the empty string (in
both cases the operation succeeds). -/
theorem process_user_data_normalized_spec (i : Value)
    (r : List (String × Value)) :
    (∀ s : String, dictLookup r "name" = some (Value.vStr s) →
      process_user_data i r =
        Except.ok { id := i, normalized := strLower s }) ∧
    (dictLookup r "name" = none →
      process_user_data i r = Except.ok { id := i, normalized := "" }) := by
  constructor
  · intro s hs
    simp [process_user_data, dictGet, hs, pyStrLower]
  · intro hnone
    simp [process_user_data, dictGet, hnone, pyStrLower, strLower]

/-- Witness for claim C3: the record binding name to Alice normalizes to
alice, and the empty record normalizes to the empty string. -/
theorem process_user_data_normalized_spec_witness :
    process_user_data (Value.vStr "u1") [("name", Value.vStr "Alice")] =
      Except.ok { id := Value.vStr "u1", normalized := "alice" } ∧
    process_user_data (Value.vStr "u2") [] =
      Except.ok { id := Value.vStr "u2", normalized := "" } := by
  constructor
  · have h := (process_user_data_normalized_spec (Value.vStr "u1")
      [("name", Value.vStr "Alice")]).1 "Alice" rfl
    simpa [strLower] using h
  · exact (process_user_data_normalized_spec (Value.vStr "u2") []).2 rfl

/-- Claim C4: for every configuration value and every collection,
analyze returns a result whose analyzed field is true and whose
data_count field equals the number of elements of the collection. -/
theorem analyze_spec (config : Value) (data : List Value) :
    ((DataAnalyzer.init config).analyze data).analyzed = true ∧
    ((DataAnalyzer.init config).analyze data).data_count = data.length :=
  ⟨rfl, rfl⟩

/-- Claim C5: for every numeric sequence d, including the empty one,
calculate_metrics(d).total equals the sum of the elements of d, the
empty sequence yielding 0. -/
theorem calculate_metrics_total_spec (d : List ℚ) :
    (calculate_metrics d).total = d.sum ∧
    (calculate_metrics ([] : List ℚ)).total = 0 :=
  ⟨rfl, rfl⟩

/-- Claim C6: whenever process_user_data(i, r) returns a result, its id
field is the identifier i passed through unchanged. -/
theorem process_user_data_id_spec (i : Value) (r : List (String × Value))
    (res : NormalizedUserData)
    (h : process_user_data i r = Except.ok res) :
    res.id = i := by
  unfold process_user_data at h
  cases hpl : pyStrLower (dictGet r "name" (Value.vStr "")) with
  | ok s => rw [hpl] at h; injection h with h2; rw [← h2]
  | error e => rw [hpl] at h; exact absurd h (by simp)

/-- Witness for claim C6 at the empty record. -/
theorem process_user_data_id_spec_witness :
    (NormalizedUserData.mk (Value.vStr "u1") "").id = Value.vStr "u1" :=
  process_user_data_id_spec (Value.vStr "u1") []
    (NormalizedUserData.mk (Value.vStr "u1") "") rfl

/-- Claim C7: constructing a DataAnalyzer with no configuration argument
is observably equivalent to constructing it with an empty configuration
mapping: analyze agrees on every collection, and both instances hold the
empty mapping as their config. -/
theorem init_default_equiv_empty :
    (∀ data : List Value,
      DataAnalyzer.initDefault.analyze data =
        (DataAnalyzer.init (Value.vDict [])).analyze data) ∧
    DataAnalyzer.initDefault.config = Value.vDict [] ∧
    (DataAnalyzer.init (Value.vDict [])).config = Value.vDict [] :=
  ⟨fun _ => rfl, rfl, rfl⟩

/-- Claim C8: analyze never consults the stored configuration; for any
two configuration values the results on the same collection coincide. -/
theorem analyze_ignores_config (c1 c2 : Value) (d : List Value) :
    (DataAnalyzer.init c1).analyze d = (DataAnalyzer.init c2).analyze d :=
  rfl

/-- Claim C9: process_user_data is not re-normalizable; the output
record never contains a name key, so re-applying the operation to it
yields an empty normalized field. -/
theorem process_user_data_not_renormalizable (i i2 : Value)
    (r : List (String × Value)) (res : NormalizedUserData)
    (h : process_user_data i r = Except.ok res) :
    dictLookup (normalizedToRecord res) "name" = none ∧
    process_user_data i2 (normalizedToRecord res) =
      Except.ok { id := i2, normalized := "" } := by
  refine ⟨dictLookup_normalizedToRecord_name res, ?_⟩
  exact (process_user_data_normalized_spec i2 (normalizedToRecord res)).2
    (dictLookup_normalizedToRecord_name res)

/-- Witness for claim C9: re-normalizing the output produced for the
record binding name to Alice yields an empty normalized field. -/
theorem process_user_data_not_renormalizable_witness :
    dictLookup (normalizedToRecord
      (NormalizedUserData.mk (Value.vStr "u1") "alice")) "name" = none ∧
    process_user_data (Value.vStr "u2") (normalizedToRecord
      (NormalizedUserData.mk (Value.vStr "u1") "alice")) =
      Except.ok { id := Value.vStr "u2", normalized := "" } :=
  process_user_data_not_renormalizable (Value.vStr "u1") (Value.vStr "u2")
    [("name", Value.vStr "Alice")]
    (NormalizedUserData.mk (Value.vStr "u1") "alice") rfl

/-- Claim C10: the constructor stores the empty mapping for every falsy
configuration value, in particular for None, 0, the empty string and an
explicitly supplied empty mapping, and stores a truthy configuration
value as given. -/
theorem init_config_spec (c : Value) :
    (truthy c = false → (DataAnalyzer.init c).config = Value.vDict []) ∧
    (truthy c = true → (DataAnalyzer.init c).config = c) ∧
    (DataAnalyzer.init Value.vNone).config = Value.vDict [] ∧
    (DataAnalyzer.init (Value.vInt 0)).config = Value.vDict [] ∧
    (DataAnalyzer.init (Value.vStr "")).config = Value.vDict [] ∧
    (DataAnalyzer.init (Value.vDict [])).config = Value.vDict [] := by
  refine ⟨?_, ?_, rfl, rfl, rfl, rfl⟩
  · intro hf
    simp [DataAnalyzer.init, hf]
  · intro ht
    simp [DataAnalyzer.init, ht]

/-- Witness for claim C10: the falsy value 0 stores the empty mapping
and the truthy one-entry mapping is stored as given. -/
theorem init_config_spec_witness :
    (DataAnalyzer.init (Value.vInt 0)).config = Value.vDict [] ∧
    (DataAnalyzer.init
        (Value.vDict [("threshold", Value.vInt 5)])).config =
      Value.vDict [("threshold", Value.vInt 5)] :=
  ⟨(init_config_spec (Value.vInt 0)).1 rfl,
   (init_config_spec (Value.vDict [("threshold", Value.vInt 5)])).2.1 rfl⟩
